import Mathlib

/-!
Shallow embedding of the multi-agent orchestrator
(`src/agents/agent_orchestrator.py`, `src/utils/simple_model_manager.py`,
`src/agents/research/research_agent.py`).

Python strings are `String`; Python dicts whose insertion order matters are
association lists `List (String × α)`; an agent invocation that may raise is
an `Except String`-valued behaviour supplied as a parameter (the agents are
external collaborators of the orchestrator core).
-/

namespace Orch

/-- `leadEq needle hay` : `needle` is a leading segment of `hay`
(character-by-character comparison). -/
def leadEq : List Char → List Char → Bool
  | [], _ => true
  | _ :: _, [] => false
  | a :: as, b :: bs => a == b && leadEq as bs

/-- Substring containment on character lists: some suffix of the haystack
starts with the needle.  This is Python's `needle in haystack` on `str`. -/
def hasSub (needle : List Char) : List Char → Bool
  | [] => leadEq needle []
  | c :: rest => leadEq needle (c :: rest) || hasSub needle rest

/-- Python `needle in haystack` for strings. -/
def strIn (needle haystack : String) : Bool :=
  hasSub needle.data haystack.data

/-- Python `str.lower()` (ASCII case folding, which covers every keyword the
router tests). -/
def pyLower (s : String) : String :=
  ⟨s.data.map Char.toLower⟩

/-- Research keywords of `_determine_agents_needed`. -/
def researchKeywords : List String :=
  ["research", "find", "search", "information", "analyze", "study"]

/-- Documentation keywords of `_determine_agents_needed`. -/
def docKeywords : List String :=
  ["document", "write", "report", "summary", "documentation"]

/-- Coding keywords of `_determine_agents_needed`. -/
def codeKeywords : List String :=
  ["code", "program", "script", "function", "class", "algorithm", "debug"]

/-- Python `any(keyword in request_lower for keyword in keywords)`. -/
def anyKeyword (keywords : List String) (requestLower : String) : Bool :=
  keywords.any (fun k => strIn k requestLower)

/-- The append sequence of `_determine_agents_needed`, as a function of the
three keyword-set test results: start from the empty list, append
"research", "documentation", "coding" in this
fixed order for each set that fired, default to `["research"]` when none
fired. -/
def agentsFor (r d c : Bool) : List String :=
  let a1 : List String := if r then ["research"] else []
  let a2 : List String := if d then a1 ++ ["documentation"] else a1
  let a3 : List String := if c then a2 ++ ["coding"] else a2
  if a3 = [] then ["research"] else a3

/-- `AgentOrchestrator._determine_agents_needed` (the Router): lower-case the
request once, test the three keyword sets by substring containment, and build
the list with `agentsFor`. -/
def determineAgentsNeeded (request : String) : List String :=
  agentsFor
    (anyKeyword researchKeywords (pyLower request))
    (anyKeyword docKeywords (pyLower request))
    (anyKeyword codeKeywords (pyLower request))

/-- Strict phrase list of `_is_coding_request`. -/
def codingIndicators : List String :=
  ["write code", "create function", "build script", "program",
   "algorithm", "class", "method", "debug", "fix code"]

/-- `AgentOrchestrator._is_coding_request`: the strict coding predicate. -/
def isCodingRequest (request : String) : Bool :=
  codingIndicators.any (fun indicator => strIn indicator (pyLower request))

/-- Python values that flow through the pipeline: strings, integers, lists and
(insertion-ordered) dicts with string keys. -/
inductive Value where
  | str (s : String)
  | num (n : Nat)
  | list (items : List Value)
  | dict (fields : List (String × Value))
deriving Repr

/-- First-match lookup in an insertion-ordered dict, Python `d.get(key)`. -/
def slookup {α : Type} : List (String × α) → String → Option α
  | [], _ => none
  | (k, v) :: rest, key => if k == key then some v else slookup rest key

/-- Field access on a dict `Value`. -/
def dictGet (v : Value) (key : String) : Option Value :=
  match v with
  | .dict fields => slookup fields key
  | _ => none

/-- The failure record the orchestrator stores when a capability raises:
`{"error": str(e), "status": "failed"}`. -/
def failDict (e : String) : Value :=
  .dict [("error", .str e), ("status", .str "failed")]

/-- Outcome of one guarded capability invocation: the returned payload on
success, the failure record when the invocation raised. -/
def stepVal : Except String Value → Value
  | .ok v => v
  | .error e => failDict e

/-- The three agents the orchestrator dispatches to, as behaviours:
`.error e` models the invocation raising exception `e`. -/
structure AgentBehavior where
  research : String → Except String Value
  documentation : Value → Except String Value
  coding : String → Except String Value

/-- One record of `conversation_history` (the logical timestamp is omitted:
no claim mentions it). -/
structure ConversationEntry where
  id : Nat
  request : String
  selectedAgents : List String
  results : List (String × Value)
deriving Repr

/-- The dict returned by a successful `process_user_request`. -/
structure ProcessReturn where
  conversationId : Nat
  request : String
  results : List (String × Value)
  status : String
deriving Repr

/-- Everything one `process_user_request` call produces: the returned dict,
the grown history, plus two observations of the run — the argument passed to
the documentation agent (when it ran) and whether the coding agent was
invoked. -/
structure RunOutcome where
  ret : ProcessReturn
  entry : ConversationEntry
  newHistory : List ConversationEntry
  docCall : Option Value
  codingCalled : Bool

/-- `if not selected_agents: selected_agents = self._determine_agents_needed(request)` —
`None` and the empty list are both falsy. -/
def effectiveAgents (request : String) : Option (List String) → List String
  | none => determineAgentsNeeded request
  | some [] => determineAgentsNeeded request
  | some l => l

/-- `results.get("research", {"research_report": request})`. -/
def researchData (results : List (String × Value)) (request : String) : Value :=
  match slookup results "research" with
  | some v => v
  | none => Value.dict [("research_report", Value.str request)]

/-- `AgentOrchestrator.process_user_request`: resolve the capability list,
run research / documentation / coding in that order with a try/except around
each, thread the research entry into documentation, gate coding behind
`_is_coding_request`, append a conversation entry, return the result dict. -/
def processUserRequest (b : AgentBehavior) (hist : List ConversationEntry)
    (request : String) (sel : Option (List String)) : RunOutcome :=
  let selectedAgents := effectiveAgents request sel
  let conversationId := hist.length
  let afterResearch : List (String × Value) :=
    if selectedAgents.contains "research" then
      [("research", stepVal (b.research request))]
    else []
  let docArg : Option Value :=
    if selectedAgents.contains "documentation" then
      some (researchData afterResearch request)
    else none
  let afterDoc : List (String × Value) :=
    match docArg with
    | some d => afterResearch ++ [("documentation", stepVal (b.documentation d))]
    | none => afterResearch
  let codingCalled := selectedAgents.contains "coding" && isCodingRequest request
  let results : List (String × Value) :=
    if codingCalled then afterDoc ++ [("coding", stepVal (b.coding request))]
    else afterDoc
  let entry : ConversationEntry :=
    { id := conversationId, request := request,
      selectedAgents := selectedAgents, results := results }
  { ret := { conversationId := conversationId, request := request,
             results := results, status := "completed" },
    entry := entry,
    newHistory := hist ++ [entry],
    docCall := docArg,
    codingCalled := codingCalled }

/-- `AgentOrchestrator.get_conversation_history`:
`self.conversation_history[-limit:]` — note that Python's `lst[-0:]` is the
whole list, not the empty one. -/
def getConversationHistory (hist : List ConversationEntry) (limit : Nat) :
    List ConversationEntry :=
  if limit = 0 then hist else hist.drop (hist.length - limit)

/-- Histories reachable by appending runs of `process_user_request` to the
initially empty store. -/
inductive Appended : List ConversationEntry → Prop where
  | nil : Appended []
  | step (b : AgentBehavior) (req : String) (sel : Option (List String))
      (h : List ConversationEntry) :
      Appended h → Appended ((processUserRequest b h req sel).newHistory)

/-- Entry `i` of the store carries id `i`. -/
def WellIndexed (hist : List ConversationEntry) : Prop :=
  ∀ i (h : i < hist.length), (hist[i]).id = i

/-! ### `src/utils/simple_model_manager.py` and the research agent -/

/-- One loaded Hugging Face pipeline of `SimpleModelManager.pipelines`:
called with a prompt and `max_new_tokens`, it either raises (`.error`) or
returns a list of generation dicts with string keys and string values. -/
structure Pipe where
  run : String → Nat → Except String (List (List (String × String)))

/-- Python string slicing `s[n:]`. -/
def pyDropChars (n : Nat) (s : String) : String :=
  ⟨s.data.drop n⟩

/-- Python `str.strip()`: remove leading and trailing whitespace. -/
def pyStrip (s : String) : String :=
  ⟨((s.data.dropWhile Char.isWhitespace).reverse.dropWhile Char.isWhitespace).reverse⟩

/-- Python `str(d)` for a dict with string keys and values. -/
def pyReprDict (d : List (String × String)) : String :=
  "\x7b" ++ String.intercalate ", " (d.map fun p => "'" ++ p.1 ++ "': '" ++ p.2 ++ "'") ++ "\x7d"

/-- `SimpleModelManager.generate_response`: unknown model type gives the
fixed "not available" string; otherwise the pipeline call and the result
extraction sit inside one try/except whose handler returns
`"Error: " ++ str(e)` (an out-of-range `result[0]` raises
`IndexError: list index out of range`, caught by the same handler); on a
successful call the generated text is sliced past the prompt and stripped. -/
def generateResponse (pipelines : List (String × Pipe)) (modelType : String)
    (prompt : String) (maxTokens : Nat) : String :=
  match slookup pipelines modelType with
  | none => "Model " ++ modelType ++ " not available"
  | some pipe =>
    match pipe.run prompt maxTokens with
    | .error e => "Error: " ++ e
    | .ok [] => "Error: list index out of range"
    | .ok (first :: _) =>
      match slookup first "generated_text" with
      | some t => pyStrip (pyDropChars prompt.length t)
      | none =>
        match slookup first "text" with
        | some t => pyStrip (pyDropChars prompt.length t)
        | none => pyReprDict first

/-- One web-search hit, the spec's `{title, url, snippet}` record. -/
structure SearchResult where
  title : String
  url : String
  snippet : String

/-- A search hit as the dict stored in the research result's `sources`. -/
def sourceVal (r : SearchResult) : Value :=
  .dict [("title", .str r.title), ("url", .str r.url), ("snippet", .str r.snippet)]

/-- Modelled from the spec: `WebSearchManager.async_search` and
`WebSearchManager.format_search_results`, which `conduct_research` calls, are
not present in `src/utils/search.py`; the spec's Search provider boundary
(`search(query, maxResults) → ordered list of {title, url, snippet}`) is an
external collaborator, so both are behaviour parameters here, with `.error`
modelling a raised exception. -/
structure SearchLayer where
  asyncSearch : String → Nat → Except String (List SearchResult)
  formatResults : List SearchResult → String

/-- The research agent's system prompt (`ResearchAgent.system_prompt`). -/
def researchSystemPrompt : String :=
  "\nYou are a Research Agent specialized in conducting comprehensive research on any topic.\nYour capabilities include:\n- Web searching and information gathering\n- Analyzing and synthesizing information from multiple sources\n- Providing detailed, well-structured research reports\n- Fact-checking and verifying information accuracy\n\nAlways provide:\n1. Clear, factual information\n2. Multiple perspectives when relevant\n3. Source citations\n4. Structured, easy-to-read reports\n"

/-- `ResearchAgent.format_prompt`: system prompt, the formatted search
results when non-empty (Python truthiness of the string), the query, and the
closing instruction. -/
def researchFormatPrompt (query searchResults : String) : String :=
  let p1 := researchSystemPrompt ++ "\n\n"
  let p2 :=
    if searchResults = "" then p1
    else p1 ++ "Based on the following search results:\n" ++ searchResults ++ "\n\n"
  p2 ++ "Research Query: " ++ query ++ "\n\n" ++ "Please provide a comprehensive research report:"

/-- `ResearchAgent.conduct_research`: search, format, generate with model
type "phi3" and `max_tokens=1024`, and wrap everything in a try/except that
returns the failure dict; only the search step can raise, since
`generate_response` catches internally and returns error strings. -/
def conductResearch (pipelines : List (String × Pipe)) (sl : SearchLayer)
    (query : String) : Value :=
  match sl.asyncSearch query 8 with
  | .error e =>
    Value.dict [("agent", .str "ResearchAgent"), ("query", .str query),
      ("error", .str e), ("status", .str "failed")]
  | .ok searchResults =>
    let formattedResults := sl.formatResults searchResults
    let prompt := researchFormatPrompt query formattedResults
    let researchReport := generateResponse pipelines "phi3" prompt 1024
    Value.dict [("agent", .str "ResearchAgent"), ("query", .str query),
      ("research_report", .str researchReport),
      ("sources", Value.list (searchResults.map sourceVal)),
      ("source_count", .num searchResults.length),
      ("status", .str "completed")]

/-! ### Concrete instances used by witnesses and counterexamples -/

/-- Behaviour whose three agents all succeed with small payloads. -/
def bOk : AgentBehavior :=
  ⟨fun _ => .ok (.str "R"), fun _ => .ok (.str "D"), fun _ => .ok (.str "C")⟩

/-- Behaviour whose three agents all raise `"x"`. -/
def bFail : AgentBehavior :=
  ⟨fun _ => .error "x", fun _ => .error "x", fun _ => .error "x"⟩

/-- Behaviour whose research agent raises `"boom"` and whose other agents
succeed. -/
def bResearchBoom : AgentBehavior :=
  ⟨fun _ => .error "boom", fun _ => .ok (.str "D"), fun _ => .ok (.str "C")⟩

/-- A search layer that finds nothing and formats to the empty string. -/
def slEmpty : SearchLayer :=
  ⟨fun _ _ => .ok [], fun _ => ""⟩

/-- The request text of the spec's coding scenario. -/
def reqC8 : String :=
  "Please write code for a function that debugs a sorting algorithm"

/-! ### Characterisation lemmas for `processUserRequest` -/

/-- The aggregated results of one run, closed form: a research entry when
"research" was selected, then a documentation entry fed from the research
step's stored outcome, then a coding entry when "coding" was selected and
the strict predicate fired. -/
lemma results_spec (b : AgentBehavior) (hist : List ConversationEntry)
    (request : String) (sel : Option (List String)) :
    (processUserRequest b hist request sel).ret.results
      = (if (effectiveAgents request sel).contains "research"
          then [("research", stepVal (b.research request))] else [])
        ++ (if (effectiveAgents request sel).contains "documentation"
          then [("documentation",
                 stepVal (b.documentation (researchData
                   (if (effectiveAgents request sel).contains "research"
                    then [("research", stepVal (b.research request))] else [])
                   request)))] else [])
        ++ (if (effectiveAgents request sel).contains "coding" && isCodingRequest request
          then [("coding", stepVal (b.coding request))] else []) := by
  by_cases hr : "research" ∈ effectiveAgents request sel <;>
  by_cases hd : "documentation" ∈ effectiveAgents request sel <;>
  by_cases hc : "coding" ∈ effectiveAgents request sel <;>
  cases hic : isCodingRequest request <;>
    simp [processUserRequest, hr, hd, hc, hic]

/-- The argument handed to the documentation agent, closed form. -/
lemma docCall_spec (b : AgentBehavior) (hist : List ConversationEntry)
    (request : String) (sel : Option (List String)) :
    (processUserRequest b hist request sel).docCall
      = if (effectiveAgents request sel).contains "documentation"
        then some (researchData
          (if (effectiveAgents request sel).contains "research"
           then [("research", stepVal (b.research request))] else []) request)
        else none := by
  by_cases hr : "research" ∈ effectiveAgents request sel <;>
  by_cases hd : "documentation" ∈ effectiveAgents request sel <;>
    simp [processUserRequest, hr, hd]

lemma codingCalled_spec (b : AgentBehavior) (hist : List ConversationEntry)
    (request : String) (sel : Option (List String)) :
    (processUserRequest b hist request sel).codingCalled
      = ((effectiveAgents request sel).contains "coding" && isCodingRequest request) := rfl

lemma entry_selectedAgents_spec (b : AgentBehavior) (hist : List ConversationEntry)
    (request : String) (sel : Option (List String)) :
    (processUserRequest b hist request sel).entry.selectedAgents
      = effectiveAgents request sel := rfl

lemma newHistory_spec (b : AgentBehavior) (hist : List ConversationEntry)
    (request : String) (sel : Option (List String)) :
    (processUserRequest b hist request sel).newHistory
      = hist ++ [(processUserRequest b hist request sel).entry] := rfl

lemma entry_id_spec (b : AgentBehavior) (hist : List ConversationEntry)
    (request : String) (sel : Option (List String)) :
    (processUserRequest b hist request sel).entry.id = hist.length := rfl

/-- Whatever the three keyword tests returned, the router's list is an
ordered selection from the fixed priority order without duplicates. -/
lemma agentsFor_sublist_nodup (r d c : Bool) :
    List.Sublist (agentsFor r d c) ["research", "documentation", "coding"]
      ∧ (agentsFor r d c).Nodup := by
  cases r <;> cases d <;> cases c <;> decide

lemma determineAgents_sublist_nodup (request : String) :
    List.Sublist (determineAgentsNeeded request) ["research", "documentation", "coding"]
      ∧ (determineAgentsNeeded request).Nodup :=
  agentsFor_sublist_nodup _ _ _

/-- Appending runs keeps ids sequential: entry `i` of the store carries
id `i`. -/
lemma appended_wellIndexed {hist : List ConversationEntry} (h : Appended hist) :
    WellIndexed hist := by
  induction h with
  | nil => intro i hi; simp at hi
  | step b req sel h2 ha ih =>
      intro i hi
      have hi2 : i < (h2 ++ [(processUserRequest b h2 req sel).entry]).length := hi
      have hrw : ((processUserRequest b h2 req sel).newHistory)[i]
          = (h2 ++ [(processUserRequest b h2 req sel).entry])[i] := rfl
      rw [hrw]
      rcases Nat.lt_or_ge i h2.length with hlt | hge
      · rw [List.getElem_append_left hlt]
        exact ih i hlt
      · have hi' : i < h2.length + 1 := by simpa using hi2
        have hieq : i = h2.length := by omega
        subst hieq
        rw [List.getElem_append_right hge]
        simpa using (entry_id_spec b h2 req sel)

/-! ### The claims -/

/-- Claim C1: for every request, capability selection and agent behaviour,
an exception raised by any one capability's invocation is caught at that
capability's boundary and recorded as the failure dict
`{"error": e, "status": "failed"}` under that capability's key, and the
presence of every capability's entry in the aggregated results depends only
on the selection (and, for coding, the strict gate) — never on another
capability's failure, so no single exception aborts the pipeline. -/
theorem pipeline_failure_isolation
    (b : AgentBehavior) (hist : List ConversationEntry) (request : String)
    (sel : Option (List String)) (e : String) :
    ((slookup (processUserRequest b hist request sel).ret.results "research").isSome
        ↔ (effectiveAgents request sel).contains "research" = true)
    ∧ ((slookup (processUserRequest b hist request sel).ret.results "documentation").isSome
        ↔ (effectiveAgents request sel).contains "documentation" = true)
    ∧ ((processUserRequest b hist request sel).docCall.isSome
        ↔ (effectiveAgents request sel).contains "documentation" = true)
    ∧ ((slookup (processUserRequest b hist request sel).ret.results "coding").isSome
        ↔ ((effectiveAgents request sel).contains "coding" = true
            ∧ isCodingRequest request = true))
    ∧ ((effectiveAgents request sel).contains "research" = true →
        b.research request = .error e →
        slookup (processUserRequest b hist request sel).ret.results "research"
          = some (failDict e))
    ∧ (∀ d, (processUserRequest b hist request sel).docCall = some d →
        b.documentation d = .error e →
        slookup (processUserRequest b hist request sel).ret.results "documentation"
          = some (failDict e))
    ∧ ((effectiveAgents request sel).contains "coding" = true →
        isCodingRequest request = true →
        b.coding request = .error e →
        slookup (processUserRequest b hist request sel).ret.results "coding"
          = some (failDict e)) := by
  rw [results_spec, docCall_spec]
  by_cases hr : "research" ∈ effectiveAgents request sel <;>
  by_cases hd : "documentation" ∈ effectiveAgents request sel <;>
  by_cases hc : "coding" ∈ effectiveAgents request sel <;>
  cases hic : isCodingRequest request <;>
    refine ⟨?_, ?_, ?_, ?_, ?_, ?_, ?_⟩ <;>
    simp [hr, hd, hc, hic, slookup, stepVal] <;>
    (try intro h1) <;>
    simp_all [slookup, stepVal]

theorem pipeline_failure_isolation_witness :
    slookup (processUserRequest bFail [] "research and write code" none).ret.results "research"
      = some (failDict "x")
    ∧ slookup (processUserRequest bFail [] "research and write code" none).ret.results "documentation"
      = some (failDict "x")
    ∧ slookup (processUserRequest bFail [] "research and write code" none).ret.results "coding"
      = some (failDict "x") :=
  ⟨(pipeline_failure_isolation bFail [] "research and write code" none "x").2.2.2.2.1
      (by decide) rfl,
   (pipeline_failure_isolation bFail [] "research and write code" none "x").2.2.2.2.2.1
      (failDict "x") rfl rfl,
   (pipeline_failure_isolation bFail [] "research and write code" none "x").2.2.2.2.2.2
      (by decide) (by decide) rfl⟩

/-- Claim C2: whenever the documentation capability executes, its input is
the research entry stored in the aggregated results if a "research" key
exists there (success or failure record alike), and otherwise the
synthesized dict `{"research_report": request}`. -/
theorem documentation_input_from_research_entry
    (b : AgentBehavior) (hist : List ConversationEntry) (request : String)
    (sel : Option (List String))
    (hdoc : (effectiveAgents request sel).contains "documentation" = true) :
    (∀ v, slookup (processUserRequest b hist request sel).ret.results "research" = some v →
        (processUserRequest b hist request sel).docCall = some v)
    ∧ (slookup (processUserRequest b hist request sel).ret.results "research" = none →
        (processUserRequest b hist request sel).docCall
          = some (Value.dict [("research_report", Value.str request)])) := by
  have hdoc' : "documentation" ∈ effectiveAgents request sel := by simpa using hdoc
  rw [results_spec, docCall_spec]
  by_cases hr : "research" ∈ effectiveAgents request sel <;>
  by_cases hc : "coding" ∈ effectiveAgents request sel <;>
  cases hic : isCodingRequest request <;>
    simp [hr, hdoc', hc, hic, slookup, researchData, stepVal]

theorem documentation_input_from_research_entry_witness :
    (∀ v, slookup (processUserRequest bOk [] "summary please" none).ret.results "research" = some v →
        (processUserRequest bOk [] "summary please" none).docCall = some v)
    ∧ (slookup (processUserRequest bOk [] "summary please" none).ret.results "research" = none →
        (processUserRequest bOk [] "summary please" none).docCall
          = some (Value.dict [("research_report", Value.str "summary please")])) :=
  documentation_input_from_research_entry bOk [] "summary please" none (by decide)

/-- Claim C3, counterexample: with research and documentation both selected
and a research invocation that raises "boom", documentation executes but
receives the stored research failure record, not the synthesized dict
wrapping the raw request text — the claim's description of the input is
false on the code. -/
theorem doc_input_after_research_failure_cex :
    (processUserRequest bResearchBoom [] "topic" (some ["research", "documentation"])).docCall
      = some (failDict "boom")
    ∧ (slookup (processUserRequest bResearchBoom [] "topic"
        (some ["research", "documentation"])).ret.results "documentation").isSome = true
    ∧ failDict "boom" ≠ Value.dict [("research_report", Value.str "topic")] := by
  refine ⟨rfl, rfl, ?_⟩
  simp [failDict]

/-- Claim C3, amended: when research and documentation are both selected and
the research invocation raises `e`, documentation still executes and its
input is the research failure record `{"error": e, "status": "failed"}`
stored under "research" — a present, non-empty input (the synthesized
wrapper is used only when no "research" key exists at all). -/
theorem doc_input_after_research_failure
    (b : AgentBehavior) (hist : List ConversationEntry) (request : String)
    (sel : Option (List String)) (e : String)
    (hres : (effectiveAgents request sel).contains "research" = true)
    (hdoc : (effectiveAgents request sel).contains "documentation" = true)
    (herr : b.research request = .error e) :
    (processUserRequest b hist request sel).docCall = some (failDict e) := by
  have hr' : "research" ∈ effectiveAgents request sel := by simpa using hres
  have hd' : "documentation" ∈ effectiveAgents request sel := by simpa using hdoc
  rw [docCall_spec]
  simp [hr', hd', researchData, slookup, herr, stepVal]

theorem doc_input_after_research_failure_witness :
    (processUserRequest bResearchBoom [] "some topic"
        (some ["research", "documentation"])).docCall = some (failDict "boom") :=
  doc_input_after_research_failure bResearchBoom [] "some topic"
    (some ["research", "documentation"]) "boom" (by decide) (by decide) rfl

/-- Claim C4: whenever the coding capability is selected — by the Router or
by an explicit caller-supplied list — the coding agent is invoked iff the
strict coding predicate holds for the raw request text, and when it does not
hold the aggregated results contain no "coding" key at all. -/
theorem coding_strict_gate
    (b : AgentBehavior) (hist : List ConversationEntry) (request : String)
    (sel : Option (List String))
    (hcod : (effectiveAgents request sel).contains "coding" = true) :
    (processUserRequest b hist request sel).codingCalled = isCodingRequest request
    ∧ (isCodingRequest request = false →
        slookup (processUserRequest b hist request sel).ret.results "coding" = none)
    ∧ (isCodingRequest request = true →
        (slookup (processUserRequest b hist request sel).ret.results "coding").isSome = true) := by
  rw [codingCalled_spec, results_spec]
  by_cases hr : "research" ∈ effectiveAgents request sel <;>
  by_cases hd : "documentation" ∈ effectiveAgents request sel <;>
  cases hic : isCodingRequest request <;>
    simp_all [slookup, stepVal]

theorem coding_strict_gate_witness :
    (processUserRequest bOk [] "write code" (some ["coding"])).codingCalled
      = isCodingRequest "write code"
    ∧ (isCodingRequest "write code" = false →
        slookup (processUserRequest bOk [] "write code" (some ["coding"])).ret.results "coding"
          = none)
    ∧ (isCodingRequest "write code" = true →
        (slookup (processUserRequest bOk [] "write code" (some ["coding"])).ret.results "coding").isSome
          = true) :=
  coding_strict_gate bOk [] "write code" (some ["coding"]) (by decide)

/-- Claim C5: the Router's output is a subsequence of the fixed order
research, documentation, coding with no duplicates, and any two request
texts whose three keyword-set tests agree produce identical outputs —
so the order of keyword occurrences inside the text is irrelevant. -/
theorem router_fixed_order (req req' : String)
    (h1 : anyKeyword researchKeywords (pyLower req)
        = anyKeyword researchKeywords (pyLower req'))
    (h2 : anyKeyword docKeywords (pyLower req)
        = anyKeyword docKeywords (pyLower req'))
    (h3 : anyKeyword codeKeywords (pyLower req)
        = anyKeyword codeKeywords (pyLower req')) :
    List.Sublist (determineAgentsNeeded req) ["research", "documentation", "coding"]
    ∧ (determineAgentsNeeded req).Nodup
    ∧ determineAgentsNeeded req = determineAgentsNeeded req' := by
  refine ⟨(determineAgents_sublist_nodup req).1, (determineAgents_sublist_nodup req).2, ?_⟩
  unfold determineAgentsNeeded
  rw [h1, h2, h3]

theorem router_fixed_order_witness :
    List.Sublist (determineAgentsNeeded "analyze this") ["research", "documentation", "coding"]
    ∧ (determineAgentsNeeded "analyze this").Nodup
    ∧ determineAgentsNeeded "analyze this" = determineAgentsNeeded "let us study that" :=
  router_fixed_order "analyze this" "let us study that" (by decide) (by decide) (by decide)

/-- Claim C6: a request text whose lower-cased form contains no keyword of
any of the three fixed sets makes the Router return exactly
`["research"]`. -/
theorem router_default_research (request : String)
    (h1 : anyKeyword researchKeywords (pyLower request) = false)
    (h2 : anyKeyword docKeywords (pyLower request) = false)
    (h3 : anyKeyword codeKeywords (pyLower request) = false) :
    determineAgentsNeeded request = ["research"] := by
  unfold determineAgentsNeeded
  rw [h1, h2, h3]
  rfl

theorem router_default_research_witness :
    determineAgentsNeeded "hello there" = ["research"] :=
  router_default_research "hello there" (by decide) (by decide) (by decide)

/-- Claim C7, counterexample: `get_conversation_history` is the Python slice
`history[-limit:]`, and at `limit = 0` that is the whole list — a store with
one appended entry returns 1 entry, not `min 0 1 = 0`. -/
theorem history_limit_zero_cex :
    (getConversationHistory ((processUserRequest bOk [] "find x" none).newHistory) 0).length = 1
    ∧ min 0 ((processUserRequest bOk [] "find x" none).newHistory).length = 0 := by
  constructor <;> rfl

/-- Claim C7, amended: for every store built by appended runs and every
limit ≥ 1, `history(limit)` returns exactly `min limit N` entries, entry `j`
of the window carries id `N - min limit N + j` (so the window is
oldest-to-newest), and the last returned entry's id is `N - 1`. -/
theorem history_window (hist : List ConversationEntry) (limit : Nat)
    (happ : Appended hist) (hlim : 1 ≤ limit) :
    (getConversationHistory hist limit).length = min limit hist.length
    ∧ (∀ j (hj : j < (getConversationHistory hist limit).length),
        ((getConversationHistory hist limit)[j]).id
          = hist.length - min limit hist.length + j)
    ∧ (∀ hne : getConversationHistory hist limit ≠ [],
        ((getConversationHistory hist limit).getLast hne).id = hist.length - 1) := by
  have hw := appended_wellIndexed happ
  have hlim0 : ¬ (limit = 0) := by omega
  have hdrop : getConversationHistory hist limit = hist.drop (hist.length - limit) := by
    simp [getConversationHistory, hlim0]
  have hlen : (getConversationHistory hist limit).length = min limit hist.length := by
    rw [hdrop, List.length_drop]; omega
  have hidx : ∀ j (hj : j < (getConversationHistory hist limit).length),
      ((getConversationHistory hist limit)[j]).id
        = hist.length - min limit hist.length + j := by
    intro j hj
    have hj' : j < (hist.drop (hist.length - limit)).length := by
      rw [← hdrop]; exact hj
    have hb : hist.length - limit + j < hist.length := by
      rw [List.length_drop] at hj'; omega
    have hg : (getConversationHistory hist limit)[j]
        = hist[hist.length - limit + j] := by
      simp only [hdrop]
      exact List.getElem_drop hist
    rw [hg, hw _ hb]
    omega
  refine ⟨hlen, hidx, ?_⟩
  intro hne
  have hpos : 0 < (getConversationHistory hist limit).length :=
    List.length_pos.mpr hne
  have hNpos : 0 < hist.length := by
    rw [hlen] at hpos; omega
  rw [List.getLast_eq_getElem]
  rw [hidx _ (by omega)]
  rw [hlen] at hpos ⊢
  omega

theorem history_window_witness :
    (getConversationHistory ((processUserRequest bOk [] "find x" none).newHistory) 1).length
      = min 1 ((processUserRequest bOk [] "find x" none).newHistory).length :=
  (history_window ((processUserRequest bOk [] "find x" none).newHistory) 1
    (Appended.step bOk "find x" none [] Appended.nil) (by omega)).1

/-- Claim C8, counterexample: for the scenario request, "write" is a
documentation keyword, so the Router selects documentation as well; the
executed list is not `["coding"]` and the aggregated results do not have
exactly the one key "coding". -/
theorem coding_scenario_cex :
    ((processUserRequest bOk [] reqC8 none).ret.results).map Prod.fst ≠ ["coding"]
    ∧ (processUserRequest bOk [] reqC8 none).entry.selectedAgents ≠ ["coding"] := by
  constructor <;> decide

/-- Claim C8, amended: for the request "Please write code for a function
that debugs a sorting algorithm" the strict coding predicate holds, the
Router returns `["documentation", "coding"]`, and for every agent behaviour
the aggregated results hold exactly the keys "documentation" and "coding" in
that order. -/
theorem coding_scenario (b : AgentBehavior) (hist : List ConversationEntry) :
    isCodingRequest reqC8 = true
    ∧ determineAgentsNeeded reqC8 = ["documentation", "coding"]
    ∧ ((processUserRequest b hist reqC8 none).ret.results).map Prod.fst
        = ["documentation", "coding"] := by
  refine ⟨by decide, by decide, ?_⟩
  rw [results_spec]
  have h1 : ¬ ("research" ∈ effectiveAgents reqC8 none) := by decide
  have h2 : "documentation" ∈ effectiveAgents reqC8 none := by decide
  have h3 : "coding" ∈ effectiveAgents reqC8 none := by decide
  have h4 : isCodingRequest reqC8 = true := by decide
  simp [h1, h2, h3, h4]

/-- Claim C9, counterexample: an explicit caller-supplied list is stored in
the conversation entry verbatim, so `["coding", "coding"]` is stored with a
duplicate — it is neither duplicate-free nor a subsequence of the fixed
priority order. -/
theorem stored_capabilities_cex :
    (processUserRequest bOk [] "x" (some ["coding", "coding"])).entry.selectedAgents
      = ["coding", "coding"]
    ∧ ¬ (["coding", "coding"] : List String).Nodup := by
  constructor <;> decide

/-- Claim C9, amended: when the caller supplies no capability list (or an
empty one) and the Router decides, the list stored in the conversation entry
is a subsequence of the fixed priority order research, documentation,
coding, with no duplicates; a non-empty explicit caller list is stored
verbatim and escapes this invariant. -/
theorem stored_capabilities_router (b : AgentBehavior) (hist : List ConversationEntry)
    (request : String) (sel : Option (List String))
    (h : sel = none ∨ sel = some []) :
    List.Sublist ((processUserRequest b hist request sel).entry.selectedAgents)
      ["research", "documentation", "coding"]
    ∧ ((processUserRequest b hist request sel).entry.selectedAgents).Nodup := by
  rw [entry_selectedAgents_spec]
  rcases h with h | h <;> subst h <;>
    simpa [effectiveAgents] using determineAgents_sublist_nodup request

theorem stored_capabilities_router_witness :
    List.Sublist ((processUserRequest bOk [] "x" none).entry.selectedAgents)
      ["research", "documentation", "coding"]
    ∧ ((processUserRequest bOk [] "x" none).entry.selectedAgents).Nodup :=
  stored_capabilities_router bOk [] "x" none (Or.inl rfl)

/-- Claim C10: `generate_response` is total (the embedding returns a plain
`String` on every input): with no pipeline loaded for the model type it
returns `"Model {type} not available"`, and when the pipeline call raises it
returns `"Error: " ++ e`; consequently `conduct_research`, whose own
try/except only guards the search step, can return a dict with status
"completed" whose `research_report` payload is such an error message. -/
theorem model_fallback_strings (pipelines : List (String × Pipe))
    (modelType prompt : String) (maxTokens : Nat) :
    (slookup pipelines modelType = none →
      generateResponse pipelines modelType prompt maxTokens
        = "Model " ++ modelType ++ " not available")
    ∧ (∀ p e, slookup pipelines modelType = some p →
        p.run prompt maxTokens = .error e →
        generateResponse pipelines modelType prompt maxTokens = "Error: " ++ e)
    ∧ (∀ (sl : SearchLayer) (query : String) (rs : List SearchResult),
        slookup pipelines "phi3" = none →
        sl.asyncSearch query 8 = .ok rs →
        dictGet (conductResearch pipelines sl query) "status" = some (.str "completed")
        ∧ dictGet (conductResearch pipelines sl query) "research_report"
            = some (.str "Model phi3 not available")) := by
  refine ⟨?_, ?_, ?_⟩
  · intro h; simp [generateResponse, h]
  · intro p e hp he; simp [generateResponse, hp, he]
  · intro sl query rs hphi hsearch
    constructor <;>
      simp [conductResearch, hsearch, generateResponse, hphi, dictGet, slookup]

theorem model_fallback_strings_witness :
    generateResponse [] "qwen" "p" 512 = "Model qwen not available"
    ∧ dictGet (conductResearch [] slEmpty "q") "status"
        = some (Value.str "completed")
    ∧ dictGet (conductResearch [] slEmpty "q") "research_report"
        = some (Value.str "Model phi3 not available") :=
  ⟨(model_fallback_strings [] "qwen" "p" 512).1 rfl,
   ((model_fallback_strings [] "qwen" "p" 512).2.2 slEmpty "q" [] rfl rfl).1,
   ((model_fallback_strings [] "qwen" "p" 512).2.2 slEmpty "q" [] rfl rfl).2⟩

end Orch
